import Mathlib

/-!
Shallow embedding of `packages/glimmer-syntax/lib/parser/handlebars-node-visitors.ts`,
the merging parser core of the glimmer-syntax package: one visitor handler per
handlebars-AST node kind, driven against the external markup tokenizer's lexical
state.  Pure functions of the source become Lean functions; the mutable parser
(`this`) becomes an explicit `ParserState` threaded through the handlers; thrown
`Error`s become `Except String`.  The abstract methods of the class
(`acceptNode`, `acceptParam`, `sourceForMustache`) and the operations inherited
from the external `TokenizerEventHandlers` superclass are a `VisitorCtx` of
function parameters, or small state operations modelled from the spec where the
superclass is not part of the sources.
-/

namespace Glimmer

/-- A line/column position, as in the source's `loc.start` (1-based line). -/
structure Pos where
  line : Nat
  column : Nat
deriving DecidableEq, Repr

/-- A source span; only the start position is consulted by this module. -/
structure Span where
  start : Pos
deriving DecidableEq, Repr

/-- The lexical states of the external markup tokenizer that the source
branches on (`this.tokenizer.state`), written as a closed enumeration. -/
inductive TokenizerState where
  | comment
  | data
  | beforeData
  | tagName
  | beforeAttributeName
  | attributeName
  | afterAttributeName
  | afterAttributeValueQuoted
  | beforeAttributeValue
  | attributeValueDoubleQuoted
  | attributeValueSingleQuoted
  | attributeValueUnquoted
deriving DecidableEq, Repr

/-- `AST.Path`.  `parts` is an `Option` because the source's `PathExpression`
returns the local `parts` declared on line 151 and never assigned (the
assignment on line 164 is a new, block-scoped `let parts` that shadows it), so
the returned field is JS `undefined`, modelled as `none`. -/
structure Path where
  original : String
  data : Bool
  parts : Option (List String)
  depth : Nat
  loc : Span
deriving DecidableEq, Repr

/-- JS `s.slice(0, n)`, as a character list. -/
def jsTake (s : String) (n : Nat) : List Char :=
  s.data.take n

/-- Message of the error thrown on line 156 for a `./`-relative path. -/
def msgCurrentContext (original : String) (line : Nat) : String :=
  "Using \"./\" is not supported in Glimmer and unnecessary: \"" ++ original ++
    "\" on line " ++ toString line ++ "."

/-- Message of the error thrown on line 159 for a `../`-relative path. -/
def msgParentContext (original : String) (line : Nat) : String :=
  "Changing context using \"../\" is not supported in Glimmer: \"" ++ original ++
    "\" on line " ++ toString line ++ "."

/-- Message of the error thrown on line 162 for a path mixing `.` and `/`. -/
def msgMixedSeparators (original : String) (line : Nat) : String :=
  "Mixing '.' and '/' in paths is not supported in Glimmer; use only '.' to separate property paths: \""
    ++ original ++ "\" on line " ++ toString line ++ "."

/-- The record literal returned by `PathExpression` (line 167):
`type: 'PathExpression'` with `data`, `original` and `loc` carried over,
`depth: 0`, and the never-assigned outer local `parts` (hence `none`). -/
def normalizedOf (path : Path) : Path :=
  { original := path.original, data := path.data, parts := none, depth := 0, loc := path.loc }

/-- Message modelling the JS `TypeError` raised when line 164 evaluates
`path.parts.join('/')` on a path whose `parts` is `undefined` — as it is on
every path already returned by `PathExpression`. -/
def joinUndefinedMessage : String :=
  "TypeError: cannot read property join of undefined"

/-- `PathExpression` (lines 149-168).  `original.indexOf('/') !== -1` is
membership of `'/'` in the characters; `original.slice(0, 2) === './'` is
`jsTake original 2 = ['.', '/']`; similarly for `../`.  The `let parts = [
path.parts.join('/') ]` on line 164 declares a fresh shadowed local, kept here
as the dead binding `_parts`; the binding is dead but its right-hand side is
evaluated eagerly, so when `path.parts` is `undefined` (`none`) the `join`
call throws a `TypeError` before the return is reached. -/
def PathExpression (path : Path) : Except String Path :=
  if '/' ∈ path.original.data then
    if jsTake path.original 2 = ['.', '/'] then
      .error (msgCurrentContext path.original path.loc.start.line)
    else if jsTake path.original 3 = ['.', '.', '/'] then
      .error (msgParentContext path.original path.loc.start.line)
    else if '.' ∈ path.original.data then
      .error (msgMixedSeparators path.original path.loc.start.line)
    else
      match path.parts with
      | none => .error joinUndefinedMessage
      | some ps =>
        let _parts := [String.intercalate "/" ps]
        .ok (normalizedOf path)
  else
    .ok (normalizedOf path)

/-- `AST.Param`: positional-argument nodes (paths and literals).  Nested
sub-expressions are visited only through the abstract `acceptParam`, so they
are not needed as a constructor here. -/
inductive Param where
  | pathP (p : Path)
  | stringP (value : String) (loc : Span)
  | numberP (value : Int) (loc : Span)
  | booleanP (value : Bool) (loc : Span)
  | undefinedP (loc : Span)
  | nullP (loc : Span)
deriving DecidableEq, Repr

/-- One `key: value` pair of an `AST.Hash`. -/
structure HashPair where
  key : String
  value : Param
  loc : Span
deriving DecidableEq, Repr

/-- `AST.Hash`; `loc` is `none` for the synthesized empty hash of line 212
(`loc: null`). -/
structure Hash where
  pairs : List HashPair
  loc : Option Span
deriving DecidableEq, Repr

/-- The call-shaped part of `AST.Call` nodes (block, mustache, sub-expression):
a path plus optional positional and named arguments (`none` = JS `undefined`). -/
structure CallShape where
  path : Path
  params : Option (List Param)
  hash : Option Hash
deriving DecidableEq, Repr

/-- Built output nodes (`Node.*` of the builders module, modelled from the
spec's data model, §3): normalized scope, block, mustache and source-comment
nodes.  A scope node's children are accumulated in the parent-stack frame that
represents it (see `ParserState.parentStack`). -/
inductive UNode where
  | programN (body : List UNode) (blockParams : List String) (loc : Span)
  | blockN (path : Path) (params : List Param) (hash : Hash)
      (program : Option UNode) (inverse : Option UNode) (loc : Span)
  | mustacheN (call : CallShape) (loc : Span)
  | commentN (value : String) (loc : Span)

/-- A fragment of an attribute value: literal text or an embedded mustache
(`currentAttribute.pushMustache`). -/
inductive AttrPart where
  | textPart (s : String)
  | mustachePart (m : UNode)

/-- Modelled from the spec: an attribute being built by the external
tokenizer-event-handlers superclass (name, quoted-ness, value fragments). -/
structure AttributeB where
  name : String
  quoted : Bool
  valueParts : List AttrPart

/-- Modelled from the spec: the tag currently being built by the external
superclass; `appendModifier` pushes onto `modifiers`. -/
structure TagBuild where
  tag : String
  modifiers : List UNode
  attributes : List AttributeB
  loc : Span

/-- An entry of the externally-owned open-element stack: the error message of
`Program` reads its `tag` and `loc.start.line`. -/
structure Element where
  tag : String
  loc : Span
deriving DecidableEq, Repr

/-- The mutable parser state (`this`): the tokenizer's lexical state and
line/column counters, the parent stack (each frame is the list of children so
far of one parent-capable node), the externally-owned element stack, and the
externally-owned current comment/tag/attribute being built.  Pushing a scope
node onto the parent stack is pushing a fresh empty frame; `appendChild`
appends to the top frame. -/
structure ParserState where
  tokenizerState : TokenizerState
  line : Nat
  column : Nat
  parentStack : List (List UNode)
  elementStack : List Element
  commentData : String
  currentTag : Option TagBuild
  currentAttr : Option AttributeB

/-- `AST.Mustache` minus its call shape: `escaped` and the span. -/
structure RMustacheShape where
  call : CallShape
  escaped : Bool
  loc : Span

/-- `AST.Content`: retained text `value`, the unstripped `original`, the
whitespace-control flag `rightStripped`, and the span. -/
structure RContent where
  original : String
  value : String
  rightStripped : Bool
  loc : Span

/-- `AST.Comment`. -/
structure RComment where
  value : String
  loc : Span

mutual
/-- `AST.Program`: body, block parameters, span. -/
inductive RProgram where
  | mk (body : List RNode) (blockParams : List String) (loc : Span)
/-- `AST.Block`: call shape, optional primary and inverse scopes, span. -/
inductive RBlock where
  | mk (call : CallShape) (program : Option RProgram) (inverse : Option RProgram) (loc : Span)
/-- `AST.Node`: the raw statement nodes dispatched over by the visitor. -/
inductive RNode where
  | nodeM (m : RMustacheShape)
  | nodeB (b : RBlock)
  | nodeC (c : RContent)
  | nodeK (c : RComment)
end

def RProgram.body : RProgram → List RNode
  | .mk b _ _ => b

def RProgram.blockParams : RProgram → List String
  | .mk _ bp _ => bp

def RProgram.loc : RProgram → Span
  | .mk _ _ l => l

def RBlock.call : RBlock → CallShape
  | .mk c _ _ _ => c

def RBlock.program : RBlock → Option RProgram
  | .mk _ p _ _ => p

def RBlock.inverse : RBlock → Option RProgram
  | .mk _ _ i _ => i

def RBlock.loc : RBlock → Span
  | .mk _ _ _ l => l

/-- `PrintableMustache`: the argument type of `sourceForMustache`. -/
inductive Printable where
  | ofMustache (m : RMustacheShape)
  | ofBlock (b : RBlock)

/-- The abstract methods of `HandlebarsNodeVisitor` (`acceptNode`,
`acceptParam` split by its two instantiations, `sourceForMustache`) together
with the two external tokenizer operations consumed by `ContentStatement`
(modelled from the spec: feed a text span through the tokenizer, flush pending
buffered text).  A subclass supplies these; the handlers below are defined for
an arbitrary such context. -/
structure VisitorCtx where
  acceptNode : ParserState → RNode → Except String ParserState
  acceptParam : Param → Except String Param
  acceptHash : Hash → Except String Hash
  sourceForMustache : Printable → String
  tokenizePart : ParserState → String → ParserState
  flushData : ParserState → ParserState

/-- Modelled from the spec: `appendChild` of the external superclass appends a
statement as a child of the current parent (the top parent-stack frame). -/
def appendChild (st : ParserState) (n : UNode) : ParserState :=
  { st with
      parentStack :=
        match st.parentStack with
        | [] => []
        | frame :: rest => (frame ++ [n]) :: rest }

/-- Modelled from the spec: `appendToCommentData` of the external superclass
appends text to the open comment's accumulated text. -/
def appendToCommentData (st : ParserState) (s : String) : ParserState :=
  { st with commentData := st.commentData ++ s }

/-- Modelled from the spec: `currentNodeAs<Tag>().appendModifier(mustache)`
attaches a mustache as a tag modifier on the currently-open tag. -/
def appendModifier (st : ParserState) (m : UNode) : ParserState :=
  { st with
      currentTag := st.currentTag.map fun t => { t with modifiers := t.modifiers ++ [m] } }

/-- Modelled from the spec: `beginAttributeValue(isQuoted)` of the external
superclass begins an (empty) value for the in-progress attribute. -/
def beginAttributeValue (st : ParserState) (isQuoted : Bool) : ParserState :=
  { st with
      currentAttr := st.currentAttr.map fun a => { a with quoted := isQuoted, valueParts := [] } }

/-- Modelled from the spec: `finishAttributeValue` of the external superclass
finalizes the in-progress attribute onto the currently-open tag and closes it. -/
def finishAttributeValue (st : ParserState) : ParserState :=
  match st.currentAttr with
  | none => st
  | some a =>
    { st with
        currentTag := st.currentTag.map fun t => { t with attributes := t.attributes ++ [a] },
        currentAttr := none }

/-- Modelled from the spec: `currentAttribute.pushMustache(mustache)` appends
the mustache into the currently-open attribute's value fragment list. -/
def pushMustacheToAttribute (st : ParserState) (m : UNode) : ParserState :=
  { st with
      currentAttr := st.currentAttr.map fun a =>
        { a with valueParts := a.valueParts ++ [AttrPart.mustachePart m] } }

/-- `hbs.program`: builds the normalized scope node.  At both call sites of the
source the program handed to the builder has an empty (or emptied) body, so the
built node starts with no children; children accumulate in the node's
parent-stack frame. -/
def hbsProgram (p : RProgram) : UNode :=
  .programN [] p.blockParams p.loc

/-- Message of the error thrown on line 43 for a dangling open element. -/
def unclosedElementMessage (tag : String) (line : Nat) : String :=
  "Unclosed element '" ++ tag ++ "' (on line " ++ toString line ++ ")."

/-- When the element stack's new top is JS `undefined` and differs from the
snapshot, line 43 dereferences `undefined.tag`: the resulting `TypeError` is
modelled as this abort message. -/
def unclosedNullMessage : String :=
  "TypeError: cannot read properties of undefined"

/-- Message of the error thrown on line 56 for a block in an illegal state. -/
def blockOutsideMessage : String :=
  "A block may only be used inside an HTML element or another block."

/-- `rawProgram.body.forEach(n => this.acceptNode(n))`: traverse the statements
in document order, aborting on the first error. -/
def traverseBody (ctx : VisitorCtx) : ParserState → List RNode → Except String ParserState
  | st, [] => .ok st
  | st, n :: rest =>
    match ctx.acceptNode st n with
    | .error e => .error e
    | .ok st' => traverseBody ctx st' rest

/-- `this.parentStack.push(node)`: pushing the new scope node opens a fresh
empty children frame. -/
def pushScopeFrame (st : ParserState) : ParserState :=
  { st with parentStack := [] :: st.parentStack }

/-- `Program` (lines 28-47): empty scopes return immediately; otherwise push
the scope node onto the parent stack, snapshot the element stack's top,
traverse the body, and fail if the element stack's top changed identity.  The
source never pops the parent stack. -/
def Program (ctx : VisitorCtx) (st : ParserState) (rawProgram : RProgram) :
    Except String (ParserState × UNode) :=
  if rawProgram.body.isEmpty then .ok (st, hbsProgram rawProgram)
  else
    let node := hbsProgram rawProgram
    let st1 := pushScopeFrame st
    let topNode := st1.elementStack.head?
    match traverseBody ctx st1 rawProgram.body with
    | .error e => .error e
    | .ok st2 =>
      let newTopNode := st2.elementStack.head?
      if topNode ≠ newTopNode then
        match newTopNode with
        | some e => .error (unclosedElementMessage e.tag e.loc.start.line)
        | none => .error unclosedNullMessage
      else .ok (st2, node)

/-- `acceptCall` (lines 199-216): normalize the path through `PathExpression`,
the positional arguments through `acceptParam` (empty list when absent), and
the hash through the hash instantiation of `acceptParam` (synthesized empty
hash with `null` loc when absent); reassemble the node with the three fields
replaced. -/
def acceptCall (ctx : VisitorCtx) (node : CallShape) : Except String CallShape :=
  match PathExpression node.path with
  | .error e => .error e
  | .ok path =>
    match (match node.params with
           | some ps => ps.mapM ctx.acceptParam
           | none => .ok []) with
    | .error e => .error e
    | .ok params =>
      match (match node.hash with
             | some h => ctx.acceptHash h
             | none => .ok { pairs := [], loc := none }) with
      | .error e => .error e
      | .ok hash => .ok { node with path := path, params := some params, hash := some hash }

/-- `block.program && this.Program(block.program)`: build an optional scope,
threading the state. -/
def acceptScope (ctx : VisitorCtx) (st : ParserState) :
    Option RProgram → Except String (ParserState × Option UNode)
  | none => .ok (st, none)
  | some p =>
    match Program ctx st p with
    | .error e => .error e
    | .ok (st', n) => .ok (st', some n)

/-- `BlockStatement` (lines 49-70): in `comment` state append the block's
source text wrapped in mustache braces to the open comment and produce no
node; in any state other than `comment`/`data`/`beforeData` abort; otherwise
normalize the call, build the primary then the inverse scope, construct the
`Node.Block` and append it to the current parent. -/
def BlockStatement (ctx : VisitorCtx) (st : ParserState) (block : RBlock) :
    Except String (ParserState × Option UNode) :=
  if st.tokenizerState = .comment then
    .ok (appendToCommentData st
          ("\x7b\x7b" ++ ctx.sourceForMustache (.ofBlock block) ++ "\x7d\x7d"), none)
  else if st.tokenizerState ≠ .comment ∧ st.tokenizerState ≠ .data ∧
      st.tokenizerState ≠ .beforeData then
    .error blockOutsideMessage
  else
    match acceptCall ctx block.call with
    | .error e => .error e
    | .ok c =>
      match acceptScope ctx st block.program with
      | .error e => .error e
      | .ok (st1, program) =>
        match acceptScope ctx st1 block.inverse with
        | .error e => .error e
        | .ok (st2, inverse) =>
          let node := UNode.blockN c.path (c.params.getD []) (c.hash.getD { pairs := [], loc := none })
              program inverse block.loc
          .ok (appendChild st2 node, some node)

/-- `MustacheStatement` (lines 72-120): in `comment` state append the source
text to the open comment and produce no node; otherwise normalize the call,
build the mustache node, and place it according to the tokenizer's lexical
state (tag modifier, attribute value fragment, or ordinary child). -/
def MustacheStatement (ctx : VisitorCtx) (st : ParserState) (m : RMustacheShape) :
    Except String (ParserState × Option UNode) :=
  if st.tokenizerState = .comment then
    .ok (appendToCommentData st
          ("\x7b\x7b" ++ ctx.sourceForMustache (.ofMustache m) ++ "\x7d\x7d"), none)
  else
    match acceptCall ctx m.call with
    | .error e => .error e
    | .ok c =>
      let mustache := UNode.mustacheN c m.loc
      match st.tokenizerState with
      | .tagName =>
        .ok ({ appendModifier st mustache with tokenizerState := .beforeAttributeName },
             some mustache)
      | .beforeAttributeName =>
        .ok (appendModifier st mustache, some mustache)
      | .attributeName | .afterAttributeName =>
        let st1 := finishAttributeValue (beginAttributeValue st false)
        .ok ({ appendModifier st1 mustache with tokenizerState := .beforeAttributeName },
             some mustache)
      | .afterAttributeValueQuoted =>
        .ok ({ appendModifier st mustache with tokenizerState := .beforeAttributeName },
             some mustache)
      | .beforeAttributeValue =>
        let st1 := { st with tokenizerState := .attributeValueUnquoted }
        .ok (pushMustacheToAttribute st1 mustache, some mustache)
      | .attributeValueDoubleQuoted | .attributeValueSingleQuoted | .attributeValueUnquoted =>
        .ok (pushMustacheToAttribute st mustache, some mustache)
      | _ =>
        .ok (appendChild st mustache, some mustache)

/-- The prefix of `l` strictly before the first occurrence of the pattern
`sep`; the whole of `l` when `sep` does not occur.  This is element `[0]` of
JS `original.split(value)` for a non-empty `value`. -/
def beforeFirst (sep : List Char) : List Char → List Char
  | [] => []
  | c :: rest =>
    if sep.isPrefixOf (c :: rest) then []
    else c :: beforeFirst sep rest

/-- The number of newline characters of a text, which is
`text.split("\n").length - 1` in JS (the separator is a single character, so
piece count is occurrence count plus one). -/
def newlineCount (l : List Char) : Nat :=
  l.count '\n'

/-- `leadingNewlineDifference` (lines 220-233): all newlines of `original`
when `value` is empty, otherwise the newlines of `original.split(value)[0]`,
the part of `original` before the retained `value`. -/
def leadingNewlineDifference (original value : String) : Nat :=
  if value = "" then newlineCount original.data
  else newlineCount (beforeFirst value.data original.data)

/-- The line/column recomputation of `ContentStatement` (lines 123-130):
`changeLines` is the stripped-newline count when `rightStripped` is set, the
tokenizer's line becomes the span's starting line plus `changeLines`, and the
column becomes 0 when `changeLines` is non-zero (JS truthiness) and the span's
starting column otherwise. -/
def contentAdjust (st : ParserState) (content : RContent) : ParserState :=
  let changeLines :=
    if content.rightStripped then leadingNewlineDifference content.original content.value
    else 0
  { st with
      line := content.loc.start.line + changeLines,
      column := if changeLines ≠ 0 then 0 else content.loc.start.column }

/-- `ContentStatement` (lines 122-134): recompute the tokenizer's line/column,
then feed the retained text through the external tokenizer and flush its
buffered data. -/
def ContentStatement (ctx : VisitorCtx) (st : ParserState) (content : RContent) : ParserState :=
  ctx.flushData (ctx.tokenizePart (contentAdjust st content) content.value)

/-- `CommentStatement` (lines 136-138): build and return `hbs.comment(comment)`;
`this` is untouched, so the state passes through unchanged and nothing is
appended anywhere. -/
def CommentStatement (st : ParserState) (comment : RComment) : ParserState × UNode :=
  (st, UNode.commentN comment.value comment.loc)

/-! Helper lemmas. -/

/-- A text starting with `./` contains a slash. -/
theorem slashMemOfDotSlash (s : String) (h : jsTake s 2 = ['.', '/']) : '/' ∈ s.data := by
  cases hl : s.data with
  | nil => rw [jsTake, hl] at h; simp at h
  | cons a t =>
    cases ht : t with
    | nil => rw [jsTake, hl, ht] at h; simp at h
    | cons b u =>
      rw [jsTake, hl, ht] at h
      simp [List.take] at h
      obtain ⟨rfl, rfl⟩ := h
      simp

/-- A text starting with `../` contains a slash and does not start with `./`. -/
theorem shapeOfDotDotSlash (s : String) (h : jsTake s 3 = ['.', '.', '/']) :
    '/' ∈ s.data ∧ jsTake s 2 ≠ ['.', '/'] := by
  cases hl : s.data with
  | nil => rw [jsTake, hl] at h; simp at h
  | cons a t =>
    cases ht : t with
    | nil => rw [jsTake, hl, ht] at h; simp at h
    | cons b u =>
      cases hu : u with
      | nil => rw [jsTake, hl, ht, hu] at h; simp at h
      | cons c v =>
        rw [jsTake, hl, ht, hu] at h
        simp [List.take] at h
        obtain ⟨rfl, rfl, rfl⟩ := h
        constructor
        · simp [hl, ht, hu]
        · rw [jsTake, hl, ht, hu]
          simp [List.take]

/-- Two strings with different first characters differ. -/
theorem stringNeOfHeadNe (a b : String) (h : a.data.head? ≠ b.data.head?) : a ≠ b :=
  fun e => h (by rw [e])

/-! Claims. -/

/-- The input of the C1 evaluation: text `"a/b"` with segments `["a", "b"]`,
exactly the spec's worked example. -/
def pathC1 : Path :=
  { original := "a/b", data := false, parts := some ["a", "b"], depth := 0,
    loc := { start := { line := 1, column := 0 } } }

/-- C1: for a path whose text contains `/` but no `.`, the claim says the
returned segment list is the single joined segment (`["a/b"]` for text
`"a/b"`).  The code instead returns the never-assigned outer `parts` local
(the assignment on line 164 declares a shadowed `let parts`), so the returned
segment list is `undefined` (`none`), not `some ["a/b"]`. -/
theorem c1_joined_parts_dropped :
    PathExpression pathC1 =
      .ok { original := "a/b", data := false, parts := none, depth := 0,
            loc := { start := { line := 1, column := 0 } } } ∧
    (normalizedOf pathC1).parts = none ∧
    (normalizedOf pathC1).parts ≠ some ["a/b"] := by
  refine ⟨rfl, rfl, by decide⟩

/-- C3: a path text beginning with `./` aborts with the current-context
message; one beginning with `../` aborts with the parent-context message (the
`./` check having failed first); any text containing both `/` and `.` aborts;
and the three message templates are pairwise distinct while each carries the
offending text and its line number (visible in the definitions
`msgCurrentContext`, `msgParentContext`, `msgMixedSeparators`). -/
theorem c3_relative_path_errors (p : Path) :
    (jsTake p.original 2 = ['.', '/'] →
      PathExpression p = .error (msgCurrentContext p.original p.loc.start.line)) ∧
    (jsTake p.original 3 = ['.', '.', '/'] →
      PathExpression p = .error (msgParentContext p.original p.loc.start.line)) ∧
    ('/' ∈ p.original.data → '.' ∈ p.original.data →
      ∃ e, PathExpression p = .error e) ∧
    (∀ s n, msgCurrentContext s n ≠ msgParentContext s n ∧
      msgCurrentContext s n ≠ msgMixedSeparators s n ∧
      msgParentContext s n ≠ msgMixedSeparators s n) := by
  refine ⟨?_, ?_, ?_, ?_⟩
  · intro h2
    have h1 := slashMemOfDotSlash p.original h2
    unfold PathExpression
    rw [if_pos h1, if_pos h2]
  · intro h3
    obtain ⟨h1, h2⟩ := shapeOfDotDotSlash p.original h3
    unfold PathExpression
    rw [if_pos h1, if_neg h2, if_pos h3]
  · intro h1 h4
    unfold PathExpression
    rw [if_pos h1]
    by_cases h2 : jsTake p.original 2 = ['.', '/']
    · exact ⟨_, by rw [if_pos h2]⟩
    · rw [if_neg h2]
      by_cases h3 : jsTake p.original 3 = ['.', '.', '/']
      · exact ⟨_, by rw [if_pos h3]⟩
      · rw [if_neg h3, if_pos h4]
        exact ⟨_, rfl⟩
  · intro s n
    have hu : (msgCurrentContext s n).data.head? = some 'U' := rfl
    have hc : (msgParentContext s n).data.head? = some 'C' := rfl
    have hm : (msgMixedSeparators s n).data.head? = some 'M' := rfl
    refine ⟨stringNeOfHeadNe _ _ ?_, stringNeOfHeadNe _ _ ?_, stringNeOfHeadNe _ _ ?_⟩
    · rw [hu, hc]; simp
    · rw [hu, hm]; simp
    · rw [hc, hm]; simp

/-- A `./`-relative path used to instantiate C3. -/
def pathC3 : Path :=
  { original := "./foo", data := false, parts := some [".", "foo"], depth := 0,
    loc := { start := { line := 3, column := 0 } } }

/-- C3 witness: the current-context branch fires on `"./foo"` at line 3. -/
theorem c3_relative_path_errors_witness :
    PathExpression pathC3 = .error (msgCurrentContext "./foo" 3) :=
  (c3_relative_path_errors pathC3).1 (by decide)

/-- A context whose abstract methods are pure passthroughs, used to
instantiate theorems at concrete inputs. -/
def ctxPure : VisitorCtx :=
  { acceptNode := fun st _ => .ok st
    acceptParam := fun p => .ok p
    acceptHash := fun h => .ok h
    sourceForMustache := fun _ => ""
    tokenizePart := fun st _ => st
    flushData := fun st => st }

/-- The path `PathExpression` returns for the spec's `a/b` example: original
`"a/b"`, `parts` undefined. -/
def pathNormAB : Path :=
  { original := "a/b", data := false, parts := none, depth := 0,
    loc := { start := { line := 1, column := 0 } } }

/-- An already-normalized call node on the slash path `a/b`: its path is the
output of path normalization on `pathC1`, and its positional and named
arguments are already in normalized form (present, empty). -/
def nodeNormAB : CallShape :=
  { path := pathNormAB, params := some [], hash := some { pairs := [], loc := none } }

/-- C9: the claim says re-running call normalization on any already-normalized
call node returns it unchanged.  `nodeNormAB`'s path is exactly the output of
path normalization on the spec's own `a/b` example (first conjunct), its
arguments are normalized and fixed by the passthrough `acceptParam`, yet
re-running `acceptCall` on the node aborts rather than reproducing it:
the re-entered slash branch eagerly evaluates line 164's
`path.parts.join('/')`, and `parts` is `undefined` on every normalized path,
so a `TypeError` fires (second and third conjuncts).  This is the same
shadowed-`let` slip as C1: with line 164 assigning the declared outer `parts`,
normalization would store `["a/b"]` and re-joining it would reproduce
`["a/b"]`, making the spec's idempotence property hold. -/
theorem c9_renormalization_crashes :
    PathExpression pathC1 = .ok pathNormAB ∧
    acceptCall ctxPure nodeNormAB = .error joinUndefinedMessage ∧
    Except.error joinUndefinedMessage ≠ (Except.ok nodeNormAB : Except String CallShape) := by
  refine ⟨rfl, rfl, ?_⟩
  intro h
  exact Except.noConfusion h

/-- A span at line 1, column 0, for concrete instantiations. -/
def loc1 : Span := { start := { line := 1, column := 0 } }

/-- A fresh parser state: top-level parent frame, no open elements. -/
def initState : ParserState :=
  { tokenizerState := .beforeData, line := 1, column := 0, parentStack := [[]],
    elementStack := [], commentData := "", currentTag := none, currentAttr := none }

/-- A dispatcher that routes comment statements through the real
`CommentStatement` handler (whose result state is its input state) and leaves
the state unchanged otherwise. -/
def ctxComment : VisitorCtx :=
  { ctxPure with
      acceptNode := fun st n =>
        match n with
        | .nodeK c => .ok (CommentStatement st c).1
        | _ => .ok st }

/-- A one-statement scope whose single statement is a comment. -/
def progC2 : RProgram := .mk [.nodeK { value := "c", loc := loc1 }] [] loc1

/-- C2: the claim says the parent stack's depth after `Program` returns equals
its depth at entry (push before traversal, pop after).  The code pushes on
line 34 and never pops: for a scope with one comment statement (whose handler
leaves the stacks untouched), entry depth 1 becomes exit depth 2. -/
theorem c2_parent_stack_not_popped :
    (Program ctxComment initState progC2).map (fun r => r.1.parentStack.length) = .ok 2 ∧
    initState.parentStack.length = 1 :=
  ⟨rfl, rfl⟩

/-- C4: for a non-empty scope, `Program` snapshots the element stack's top
before the body runs; given that the body traversal succeeds with state `st'`,
the handler returns the scope normally when the top is unchanged and aborts
with the unclosed-element message naming the dangling element's tag and
opening line when the top differs. -/
theorem c4_element_stack_balance (ctx : VisitorCtx) (st st' : ParserState) (p : RProgram)
    (hne : p.body.isEmpty = false)
    (hrun : traverseBody ctx (pushScopeFrame st) p.body = .ok st') :
    (st'.elementStack.head? = st.elementStack.head? →
      Program ctx st p = .ok (st', hbsProgram p)) ∧
    (∀ e, st'.elementStack.head? = some e →
      st'.elementStack.head? ≠ st.elementStack.head? →
      Program ctx st p = .error (unclosedElementMessage e.tag e.loc.start.line)) := by
  have hes : (pushScopeFrame st).elementStack.head? = st.elementStack.head? := rfl
  constructor
  · intro heq
    simp only [Program, hne, Bool.false_eq_true, if_false, hrun, hes]
    rw [if_neg (by rw [heq]; exact fun hcon => hcon rfl)]
  · intro e he hne2
    simp only [Program, hne, Bool.false_eq_true, if_false, hrun, hes]
    rw [if_pos (Ne.symm hne2), he]

/-- The dangling element of the C4 instantiation. -/
def elemDiv : Element := { tag := "div", loc := loc1 }

/-- A dispatcher whose every statement opens an element and never closes it. -/
def ctxOpenDiv : VisitorCtx :=
  { ctxPure with
      acceptNode := fun st _ => .ok { st with elementStack := elemDiv :: st.elementStack } }

/-- A one-statement scope for the C4 instantiation. -/
def progC4 : RProgram := .mk [.nodeK { value := "x", loc := loc1 }] [] loc1

/-- The state after traversing `progC4` under `ctxOpenDiv`. -/
def stAfterC4 : ParserState := { pushScopeFrame initState with elementStack := [elemDiv] }

/-- C4 witness: a body that leaves `div` open makes `Program` abort with the
unclosed-element message for `div` at line 1. -/
theorem c4_element_stack_balance_witness :
    Program ctxOpenDiv initState progC4 = .error (unclosedElementMessage "div" 1) :=
  (c4_element_stack_balance ctxOpenDiv initState stAfterC4 progC4 rfl rfl).2 elemDiv rfl
    (by simp [stAfterC4, initState, pushScopeFrame])

/-- C5: `BlockStatement` aborts with the block-outside message exactly on
tokenizer states other than `comment`/`data`/`beforeData`; in `comment` state
it appends the block's source text wrapped in mustache braces to the open
comment and produces no node; in `data`/`beforeData` state (whenever call
normalization and the two scope builds succeed) it builds the `Node.Block`
and appends it to the current parent. -/
theorem c5_block_statement (ctx : VisitorCtx) (st : ParserState) (b : RBlock) :
    (¬st.tokenizerState = .comment ∧ ¬st.tokenizerState = .data ∧
        ¬st.tokenizerState = .beforeData →
      BlockStatement ctx st b = .error blockOutsideMessage) ∧
    (st.tokenizerState = .comment →
      BlockStatement ctx st b =
        .ok (appendToCommentData st
              ("\x7b\x7b" ++ ctx.sourceForMustache (.ofBlock b) ++ "\x7d\x7d"), none)) ∧
    (∀ c st1 pr st2 inv,
      st.tokenizerState = .data ∨ st.tokenizerState = .beforeData →
      acceptCall ctx b.call = .ok c →
      acceptScope ctx st b.program = .ok (st1, pr) →
      acceptScope ctx st1 b.inverse = .ok (st2, inv) →
      BlockStatement ctx st b =
        .ok (appendChild st2
              (UNode.blockN c.path (c.params.getD [])
                (c.hash.getD { pairs := [], loc := none }) pr inv b.loc),
             some (UNode.blockN c.path (c.params.getD [])
               (c.hash.getD { pairs := [], loc := none }) pr inv b.loc))) := by
  refine ⟨?_, ?_, ?_⟩
  · rintro ⟨h1, h2, h3⟩
    unfold BlockStatement
    rw [if_neg h1, if_pos ⟨h1, h2, h3⟩]
  · intro h
    unfold BlockStatement
    rw [if_pos h]
  · intro c st1 pr st2 inv hdb hc hp hi
    have h1 : ¬st.tokenizerState = .comment := by
      rcases hdb with h | h <;> simp [h]
    have hcond : ¬(st.tokenizerState ≠ .comment ∧ st.tokenizerState ≠ .data ∧
        st.tokenizerState ≠ .beforeData) := by
      rcases hdb with h | h <;> simp [h]
    unfold BlockStatement
    rw [if_neg h1, if_neg hcond]
    simp only [hc, hp, hi]

/-- A block node in tag-name position for the C5 instantiation. -/
def blockC5 : RBlock :=
  .mk { path := { original := "x", data := false, parts := some ["x"], depth := 0, loc := loc1 },
        params := none, hash := none }
     none none loc1

/-- C5 witness: a block visited in `tagName` state aborts with the
block-outside message. -/
theorem c5_block_statement_witness :
    BlockStatement ctxPure { initState with tokenizerState := .tagName } blockC5 =
      .error blockOutsideMessage :=
  (c5_block_statement ctxPure { initState with tokenizerState := .tagName } blockC5).1
    (by refine ⟨?_, ?_, ?_⟩ <;> simp [initState])

/-- C6: a mustache visited in `tagName` state is attached as a tag modifier on
the currently-open tag, the tokenizer is left in `beforeAttributeName` state,
nothing is appended to the current parent frame (the parent stack is
untouched), and the built mustache node is returned. -/
theorem c6_mustache_tag_modifier (ctx : VisitorCtx) (st : ParserState) (m : RMustacheShape)
    (c : CallShape) (t : TagBuild)
    (hstate : st.tokenizerState = .tagName)
    (hcall : acceptCall ctx m.call = .ok c)
    (htag : st.currentTag = some t) :
    MustacheStatement ctx st m =
      .ok ({ st with
              currentTag := some { t with modifiers := t.modifiers ++ [UNode.mustacheN c m.loc] },
              tokenizerState := .beforeAttributeName },
           some (UNode.mustacheN c m.loc)) ∧
    ParserState.parentStack
        { st with
            currentTag := some { t with modifiers := t.modifiers ++ [UNode.mustacheN c m.loc] },
            tokenizerState := .beforeAttributeName } = st.parentStack := by
  constructor
  · unfold MustacheStatement
    rw [hstate]
    rw [if_neg (by simp)]
    simp only [hcall]
    simp [appendModifier, htag]
  · rfl

/-- A raw path `x` (no separators), used by concrete instantiations. -/
def pathRawX : Path :=
  { original := "x", data := false, parts := some ["x"], depth := 0, loc := loc1 }

/-- A raw call on `x` with no arguments. -/
def callRawX : CallShape := { path := pathRawX, params := none, hash := none }

/-- The normalization of `callRawX`: normalized path, empty positional list,
synthesized empty hash. -/
def callNormX : CallShape :=
  { path := { original := "x", data := false, parts := none, depth := 0, loc := loc1 },
    params := some [], hash := some { pairs := [], loc := none } }

/-- A raw mustache on `x`. -/
def mustC : RMustacheShape := { call := callRawX, escaped := true, loc := loc1 }

/-- An open `div` tag with no modifiers or attributes yet. -/
def tagDiv : TagBuild := { tag := "div", modifiers := [], attributes := [], loc := loc1 }

/-- A state inside a tag name with `tagDiv` open. -/
def stC6 : ParserState :=
  { initState with tokenizerState := .tagName, currentTag := some tagDiv }

/-- C6 witness: the mustache on `x` becomes a modifier of the open `div`. -/
theorem c6_mustache_tag_modifier_witness :
    MustacheStatement ctxPure stC6 mustC =
      .ok ({ stC6 with
              currentTag := some { tagDiv with
                modifiers := tagDiv.modifiers ++ [UNode.mustacheN callNormX mustC.loc] },
              tokenizerState := .beforeAttributeName },
           some (UNode.mustacheN callNormX mustC.loc)) :=
  (c6_mustache_tag_modifier ctxPure stC6 mustC callNormX tagDiv rfl rfl rfl).1

/-- C7: a mustache visited in `attributeName` (or `afterAttributeName`) state
first closes the pending attribute — an empty unquoted value is begun and
finalized onto the open tag — then attaches as a tag modifier and leaves the
tokenizer in `beforeAttributeName` state with no attribute open
(`currentAttr = none`) and the parent stack untouched. -/
theorem c7_mustache_attribute_close (ctx : VisitorCtx) (st : ParserState) (m : RMustacheShape)
    (c : CallShape) (t : TagBuild) (a : AttributeB)
    (hstate : st.tokenizerState = .attributeName ∨ st.tokenizerState = .afterAttributeName)
    (hcall : acceptCall ctx m.call = .ok c)
    (htag : st.currentTag = some t)
    (hattr : st.currentAttr = some a) :
    MustacheStatement ctx st m =
      .ok ({ st with
              currentTag := some { t with
                attributes := t.attributes ++ [{ a with quoted := false, valueParts := [] }],
                modifiers := t.modifiers ++ [UNode.mustacheN c m.loc] },
              currentAttr := none,
              tokenizerState := .beforeAttributeName },
           some (UNode.mustacheN c m.loc)) ∧
    ParserState.parentStack
        { st with
            currentTag := some { t with
              attributes := t.attributes ++ [{ a with quoted := false, valueParts := [] }],
              modifiers := t.modifiers ++ [UNode.mustacheN c m.loc] },
            currentAttr := none,
            tokenizerState := .beforeAttributeName } = st.parentStack := by
  refine ⟨?_, rfl⟩
  rcases hstate with h | h <;>
  · unfold MustacheStatement
    rw [h]
    rw [if_neg (by simp)]
    simp only [hcall]
    simp [beginAttributeValue, finishAttributeValue, appendModifier, htag, hattr]

/-- A pending attribute `class`, begun as quoted. -/
def attrClass : AttributeB := { name := "class", quoted := true, valueParts := [] }

/-- A state inside an attribute name with `tagDiv` open and `attrClass`
pending. -/
def stC7 : ParserState :=
  { initState with
      tokenizerState := .attributeName
      currentTag := some tagDiv
      currentAttr := some attrClass }

/-- C7 witness: the pending `class` attribute is finalized with an empty
unquoted value and the mustache attaches as a modifier. -/
theorem c7_mustache_attribute_close_witness :
    MustacheStatement ctxPure stC7 mustC =
      .ok ({ stC7 with
              currentTag := some { tagDiv with
                attributes := tagDiv.attributes ++ [{ attrClass with quoted := false, valueParts := [] }],
                modifiers := tagDiv.modifiers ++ [UNode.mustacheN callNormX mustC.loc] },
              currentAttr := none,
              tokenizerState := .beforeAttributeName },
           some (UNode.mustacheN callNormX mustC.loc)) :=
  (c7_mustache_attribute_close ctxPure stC7 mustC callNormX tagDiv attrClass
    (Or.inl rfl) rfl rfl rfl).1

/-- C8: for a content node whose leading whitespace was elided
(`rightStripped`), `ContentStatement` hands the tokenizer a state whose line
counter is the span's starting line plus the number of removed newlines —
all newlines of the original when the retained text is empty, otherwise the
newlines of the original text preceding the retained text — and whose column
is 0 when at least one newline was removed and the span's starting column
otherwise. -/
theorem c8_content_line_recompute (ctx : VisitorCtx) (st : ParserState) (content : RContent)
    (h : content.rightStripped = true) :
    ContentStatement ctx st content =
      ctx.flushData (ctx.tokenizePart (contentAdjust st content) content.value) ∧
    (contentAdjust st content).line =
      content.loc.start.line + leadingNewlineDifference content.original content.value ∧
    (contentAdjust st content).column =
      (if leadingNewlineDifference content.original content.value ≠ 0 then 0
       else content.loc.start.column) ∧
    (content.value = "" →
      leadingNewlineDifference content.original content.value =
        newlineCount content.original.data) ∧
    (content.value ≠ "" →
      leadingNewlineDifference content.original content.value =
        newlineCount (beforeFirst content.value.data content.original.data)) := by
  refine ⟨rfl, ?_, ?_, ?_, ?_⟩
  · simp [contentAdjust, h]
  · simp [contentAdjust, h]
  · intro hv
    simp [leadingNewlineDifference, hv]
  · intro hv
    simp [leadingNewlineDifference, hv]

/-- A content span starting at line 5, column 3, whose two leading newlines
were stripped. -/
def contentC8 : RContent :=
  { original := "\n\nxy", value := "xy", rightStripped := true,
    loc := { start := { line := 5, column := 3 } } }

/-- C8 witness: two stripped newlines advance the line counter from 5 to 7 and
reset the column to 0. -/
theorem c8_content_line_recompute_witness :
    (contentAdjust initState contentC8).line = 7 ∧
    (contentAdjust initState contentC8).column = 0 := by
  have h := c8_content_line_recompute ctxPure initState contentC8 rfl
  refine ⟨?_, ?_⟩
  · rw [h.2.1]; rfl
  · rw [h.2.2.1]; rfl

/-- C10: `CommentStatement` builds and returns the source-comment node but
appends nothing anywhere: the parent stack, the element stack and the
tokenizer's lexical state all pass through unchanged. -/
theorem c10_comment_no_attachment (st : ParserState) (comment : RComment) :
    CommentStatement st comment = (st, UNode.commentN comment.value comment.loc) ∧
    (CommentStatement st comment).1.parentStack = st.parentStack ∧
    (CommentStatement st comment).1.elementStack = st.elementStack ∧
    (CommentStatement st comment).1.tokenizerState = st.tokenizerState :=
  ⟨rfl, rfl, rfl, rfl⟩

end Glimmer

